import Mathlib

/-!
Verification of the session controller in `src/frontend/src/App.tsx`.

The component is a React function component.  Its reactive state (the
`useState` hooks) is embedded as the `Session` structure below; JS strings are
embedded as `List Char` (character-level, which matches how the code uses
them: `startsWith`, `slice`, `split`, `trim`, concatenation); `null`-able
strings become `Option (List Char)`.  Event-handler functions become pure
functions `Session → ... → Session`, with their I/O side effects (network
requests opened, aborts issued, texts handed to the speech engine) collected
in an explicit `Effects` record.  The asynchronous `fetch`/stream part of
`handleSubmit`/`handleDescribe` is split at its suspension point: the
synchronous prefix (validation, optimistic updates, controller creation,
request open) and the continuation that runs once the transport settles,
parameterised by a `FetchOutcome` describing what the transport did.

Speech synthesis (`window.speechSynthesis`) is an external platform resource;
it is embedded as `SynthState` with the standard semantics of
`cancel()`/`speak()`: at most one utterance is active, `cancel` interrupts the
active utterance and fires an error event on it (per the Web Speech API an
interrupted utterance receives an `error` event, not `end`), `speak` makes the
new utterance active and fires its start event.  The app-side `isSpeaking`
flag is driven by those events, so the synchronous controller transitions
never touch it.

Wall-clock timestamps on conversation entries (`timestamp: Date`) are outside
the model; entries keep their role and text, which is all the claims mention.
-/

/-! ## JS string operations on `List Char` -/

/-- JS `line.startsWith(p)`: `p` is a prefix of the second argument. -/
def startsWithL : List Char → List Char → Bool
  | [], _ => true
  | _ :: _, [] => false
  | p :: ps, c :: cs => if p = c then startsWithL ps cs else false

/-- JS `chunk.split('\n')`.  `''.split('\n')` is `['']`, a trailing newline
yields a trailing empty piece, matching the JS semantics. -/
def splitOnNl : List Char → List (List Char)
  | [] => [[]]
  | c :: cs =>
    if c = '\n' then [] :: splitOnNl cs
    else
      match splitOnNl cs with
      | [] => [[c]]
      | l :: ls => (c :: l) :: ls

/-- Whitespace characters removed by JS `String.trim` (the ones relevant to
question text). -/
def isWsChar (c : Char) : Bool := c = ' ' || c = '\t' || c = '\n' || c = '\r'

/-- JS `s.trim()`. -/
def trimL (l : List Char) : List Char :=
  ((l.dropWhile isWsChar).reverse.dropWhile isWsChar).reverse

/-- JS truthiness of a `string | null` value: `null` and the empty string are
falsy. -/
def jsTruthyStr : Option (List Char) → Bool
  | none => false
  | some l => !l.isEmpty

/-- Concatenation of a list of text fragments, in order. -/
def joinAll : List (List Char) → List Char
  | [] => []
  | t :: ts => t ++ joinAll ts

/-- True when the text contains no newline, i.e. it fits on one SSE line. -/
def noNl (l : List Char) : Bool := l.all (fun c => c != '\n')

/-! ## Data model (the `useState` hooks and refs of `App`) -/

/-- `mediaType` state: `'image' | 'video'`. -/
inductive MediaKind where
  | image
  | video
deriving DecidableEq

/-- Role of a `ConversationItem`: `'question' | 'answer'` (source field
`type`). -/
inductive EntryRole where
  | question
  | answer
deriving DecidableEq

/-- `ConversationItem { type, text, timestamp }`; the wall-clock timestamp is
outside the model. -/
structure ConversationItem where
  role : EntryRole
  text : List Char
deriving DecidableEq

/-- The reactive state of the `App` component.  `streamRef` abstracts whether
`streamRef.current` holds a live camera `MediaStream`; `timerActive` whether
`recordingTimerRef.current` holds a live interval; `recorderRunning` whether
the `MediaRecorder` in `mediaRecorderRef` has been started and not stopped;
`timerCaptured` is the value of `isRecording` captured by the `stopRecording`
closure that the recording interval callback holds (see
`startRecordingModel`); `abortRef` is the id of the `AbortController` in
`abortControllerRef.current`, if any. -/
structure Session where
  image : Option (List Char)
  video : Option (List Char)
  mediaType : MediaKind
  question : List Char
  conversation : List ConversationItem
  isLoading : Bool
  error : Option (List Char)
  streamingText : List Char
  isSpeaking : Bool
  ttsEnabled : Bool
  isListening : Bool
  cameraActive : Bool
  isRecording : Bool
  recordingTime : Nat
  streamRef : Bool
  timerActive : Bool
  timerCaptured : Bool
  recorderRunning : Bool
  abortRef : Option Nat
deriving DecidableEq

/-- Side effects of one controller call: ids of `AbortController`s whose
signal was handed to a newly opened `fetch`, ids on which `abort()` was
called, and texts passed to `speak`. -/
structure Effects where
  requests : List Nat
  aborts : List Nat
  spoken : List (List Char)
deriving DecidableEq

/-- Sequencing of effect records. -/
def effSeq (e1 e2 : Effects) : Effects :=
  ⟨e1.requests ++ e2.requests, e1.aborts ++ e2.aborts, e1.spoken ++ e2.spoken⟩

/-! ## Speech output (the `speak` callback, lines 84-94, and the platform
speech-synthesis resource) -/

/-- Events observed on utterances: the app installs `onstart`, `onend` and
`onerror` handlers on every utterance it creates. -/
inductive SpeechEvent where
  | started (uid : Nat)
  | ended (uid : Nat)
  | errored (uid : Nat)
deriving DecidableEq

/-- The platform speech-synthesis singleton: whether `'speechSynthesis' in
window`, the currently active utterance (at most one), and the trace of
utterance events fired so far. -/
structure SynthState where
  available : Bool
  active : Option Nat
  events : List SpeechEvent
deriving DecidableEq

/-- `window.speechSynthesis.cancel()`: if an utterance is active it ceases and
receives an error event (Web Speech API: an interrupted utterance gets
`error`, never `end`). -/
def cancelModel (synth : SynthState) : SynthState :=
  match synth.active with
  | none => synth
  | some a => { synth with active := none, events := synth.events ++ [SpeechEvent.errored a] }

/-- `speak(text)` (lines 84-94): no-op unless TTS is enabled and the platform
has speech synthesis; otherwise cancel the active utterance, then speak a new
utterance `uid`, which becomes active and fires its start event. -/
def speakModel (ttsEnabled : Bool) (synth : SynthState) (uid : Nat) : SynthState :=
  if !ttsEnabled || !synth.available then synth
  else
    let s1 := cancelModel synth
    { s1 with active := some uid, events := s1.events ++ [SpeechEvent.started uid] }

/-- The active utterance finishing naturally: fires its end event. -/
def utterFinishModel (synth : SynthState) : SynthState :=
  match synth.active with
  | none => synth
  | some a => { synth with active := none, events := synth.events ++ [SpeechEvent.ended a] }

/-- Number of end events in an event trace. -/
def endedCount (evs : List SpeechEvent) : Nat :=
  evs.countP (fun e => match e with | SpeechEvent.ended _ => true | _ => false)

/-! ## SSE stream parsing (the read loop of `handleSubmit`, lines 390-405,
textually repeated in `handleDescribe`, lines 465-480) -/

/-- The `'data: '` frame prefix (`line.startsWith('data: ')`). -/
def dataPrefix : List Char := ['d', 'a', 't', 'a', ':', ' ']

/-- The `'[DONE]'` sentinel payload. -/
def doneToken : List Char := ['[', 'D', 'O', 'N', 'E', ']']

/-- One SSE line carrying payload `t`. -/
def frameOf (t : List Char) : List Char := dataPrefix ++ t

/-- The inner `for (const line of lines)` loop over one decoded chunk:
accumulate `line.slice(6)` for every `data: ` line; on the `[DONE]` payload
`break` — which exits only this inner loop, skipping the rest of the current
chunk. -/
def processLines : List (List Char) → List Char → List Char
  | [], acc => acc
  | line :: rest, acc =>
    if startsWithL dataPrefix line then
      if line.drop 6 = doneToken then acc
      else processLines rest (acc ++ line.drop 6)
    else processLines rest acc

/-- The outer `while (true)` read loop: each chunk is split on `'\n'` and fed
to the inner loop; the accumulated `fullText` is threaded through.  Note the
`break` on `[DONE]` does not terminate this outer loop. -/
def sseRun : List (List Char) → List Char → List Char
  | [], acc => acc
  | chunk :: rest, acc => sseRun rest (processLines (splitOnNl chunk) acc)

/-! ## Camera and recording (lines 172-289) -/

/-- `stopCamera` (lines 172-190): clear the recording interval, stop the
recorder if `isRecording` (the invoking render's `stopCamera` has the current
`isRecording`), stop and drop the stream tracks, detach the preview, and
reset the camera/recording flags. -/
def stopCameraModel (s : Session) : Session :=
  { s with timerActive := false,
           recorderRunning := if s.isRecording then false else s.recorderRunning,
           streamRef := false,
           cameraActive := false,
           isRecording := false,
           recordingTime := 0 }

/-- `stopRecording` (lines 214-224), parameterised by the value of
`isRecording` that the invoked closure captured when `useCallback` memoised
it: `if (!isRecording) return;` then clear the interval, stop the recorder,
and set `isRecording` to false (the ref and the state setter always act on
the current values; only the guard is read from the closure). -/
def stopRecordingModel (captured : Bool) (s : Session) : Session :=
  if !captured then s
  else { s with timerActive := false, recorderRunning := false, isRecording := false }

/-- `startRecording` (lines 228-279): `if (!streamRef.current) return;` then
start a `MediaRecorder`, set `isRecording := true`, `recordingTime := 0`, and
install the one-second interval.  The interval callback closes over the
`stopRecording` value that was in scope when this `startRecording` was
memoised — i.e. the one whose captured `isRecording` is the value state held
when `startRecording` ran (before `setIsRecording(true)` re-rendered), which
is what `timerCaptured` records. -/
def startRecordingModel (s : Session) : Session :=
  if !s.streamRef then s
  else { s with recorderRunning := true,
                isRecording := true,
                recordingTime := 0,
                timerActive := true,
                timerCaptured := s.isRecording }

/-- One firing of the recording interval (lines 268-276):
`setRecordingTime(prev => { if (prev >= 9) { stopRecording(); return 10; }
return prev + 1; })`, where `stopRecording` is the closure recorded in
`timerCaptured`. -/
def tickModel (s : Session) : Session :=
  if !s.timerActive then s
  else if s.recordingTime ≥ 9 then
    let s1 := stopRecordingModel s.timerCaptured s
    { s1 with recordingTime := 10 }
  else { s with recordingTime := s.recordingTime + 1 }

/-- `n` consecutive interval firings. -/
def runTicks : Nat → Session → Session
  | 0, s => s
  | n + 1, s => runTicks n (tickModel s)

/-- `capturePhoto` (lines 193-211) with the captured frame encoded as
`frameData`: set the image artifact, drop any video, start a fresh
conversation, and close the camera.  `error` is not touched. -/
def capturePhotoModel (s : Session) (frameData : List Char) : Session :=
  stopCameraModel
    { s with image := some frameData,
             video := none,
             mediaType := MediaKind.image,
             conversation := [] }

/-- The `mediaRecorder.onstop` → `reader.onloadend` completion path of a
recording (lines 243-258) with the finalized clip encoded as `base64`: set
the video artifact, drop any image, start a fresh conversation, and close the
camera.  `error` is not touched. -/
def recorderOnStopModel (s : Session) (base64 : List Char) : Session :=
  stopCameraModel
    { s with video := some base64,
             image := none,
             mediaType := MediaKind.video,
             conversation := [] }

/-- An uploaded file: its MIME type, size in bytes, and the data URL the
`FileReader` produces from it. -/
structure JsFile where
  ftype : List Char
  size : Nat
  dataUrl : List Char
deriving DecidableEq

/-- The `'image/'` MIME prefix. -/
def imgPrefix : List Char := ['i', 'm', 'a', 'g', 'e', '/']

/-- Error message for a non-image upload. -/
def errNotImageMsg : List Char := "이미지 파일만 업로드할 수 있습니다.".toList

/-- `handleImageUpload` (lines 294-312): no file selected is a no-op; a
non-`image/*` file only sets the error; otherwise (the `reader.onload` path)
set the image artifact, drop any video, start a fresh conversation, and clear
the error. -/
def handleImageUploadModel (s : Session) (file : Option JsFile) : Session :=
  match file with
  | none => s
  | some f =>
    if !startsWithL imgPrefix f.ftype then { s with error := some errNotImageMsg }
    else { s with image := some f.dataUrl,
                  video := none,
                  mediaType := MediaKind.image,
                  conversation := [],
                  error := none }

/-! ## Question submission and description requests (lines 141-146, 341-499,
502-513) -/

/-- Validation message for a missing media artifact. -/
def errNoMediaMsg : List Char := "먼저 이미지나 영상을 준비해주세요.".toList

/-- Validation message for an empty question. -/
def errNoQuestionMsg : List Char := "질문을 입력해주세요.".toList

/-- Announcement spoken when answer generation starts. -/
def genPendingMsg : List Char := "답변을 생성 중입니다.".toList

/-- Error message shown for a non-success response or network failure in
`handleSubmit`. -/
def errServerMsg : List Char := "서버 연결에 실패했습니다.".toList

/-- Announcement spoken when video analysis starts in `handleDescribe`. -/
def analyzeVideoMsg : List Char := "영상을 분석 중입니다.".toList

/-- Announcement spoken when image analysis starts in `handleDescribe`. -/
def analyzeImageMsg : List Char := "이미지를 분석 중입니다.".toList

/-- The synthetic question text appended by `handleDescribe` in video mode. -/
def descVideoQText : List Char := "이 영상을 설명해주세요.".toList

/-- The synthetic question text appended by `handleDescribe` in image mode. -/
def descImageQText : List Char := "이 이미지를 설명해주세요.".toList

/-- Message spoken (only spoken) when `handleDescribe` fails. -/
def descFailMsg : List Char := "설명을 가져올 수 없습니다.".toList

/-- Announcement spoken by `handleReset`. -/
def resetMsg : List Char := "새로운 이미지나 영상을 준비해주세요.".toList

/-- How the transport settles a request once opened:
`success chunks` — `response.ok` and the stream delivers `chunks` then ends;
`notOk chunks` — the response status is non-success, `chunks` its body;
`netFail` — `fetch` itself rejects with a network error;
`abortBefore` — the controller is aborted before `fetch` resolves
(`AbortError`);
`abortDuring chunks` — `chunks` are delivered, then a `read()` rejects with
`AbortError` because the controller was aborted. -/
inductive FetchOutcome where
  | success (chunks : List (List Char))
  | notOk (chunks : List (List Char))
  | netFail
  | abortBefore
  | abortDuring (chunks : List (List Char))
deriving DecidableEq

/-- Result of the synchronous prefix of `handleSubmit`/`handleDescribe`. -/
structure StartResult where
  st : Session
  eff : Effects
  proceed : Bool
deriving DecidableEq

/-- The synchronous prefix of `handleSubmit` (lines 341-382): the two
validation guards (`!image && !video`; `!question.trim()`) set an error and
speak it without touching anything else; otherwise set loading, clear error
and transient streamed text, speak the progress announcement, append the
`question` entry optimistically, clear the input, create a fresh
`AbortController` `nid` — overwriting `abortControllerRef` without aborting
its previous occupant — and open the request with its signal. -/
def submitStart (s : Session) (nid : Nat) : StartResult :=
  if !jsTruthyStr s.image && !jsTruthyStr s.video then
    ⟨{ s with error := some errNoMediaMsg }, ⟨[], [], [errNoMediaMsg]⟩, false⟩
  else if (trimL s.question).isEmpty then
    ⟨{ s with error := some errNoQuestionMsg }, ⟨[], [], [errNoQuestionMsg]⟩, false⟩
  else
    ⟨{ s with isLoading := true,
              error := none,
              streamingText := [],
              conversation := s.conversation ++ [⟨EntryRole.question, s.question⟩],
              question := [],
              abortRef := some nid },
     ⟨[nid], [], [genPendingMsg]⟩, true⟩

/-- The continuation of `handleSubmit` after `fetch` settles (lines 384-425):
on `response.ok`, run the SSE read loop, append the `answer` entry with the
accumulated `fullText`, clear the transient streamed text and speak the
answer; a non-success response throws, and together with a network failure
lands in the catch block, which sets the server-error message and speaks it;
an `AbortError` is recognised by name and sets nothing — in particular the
transient streamed text keeps whatever had accumulated; the `finally` block
always clears the loading flag and nulls `abortControllerRef`. -/
def submitFinish (s : Session) (o : FetchOutcome) : Session × Effects :=
  match o with
  | FetchOutcome.success chunks =>
    let full := sseRun chunks []
    ({ s with conversation := s.conversation ++ [⟨EntryRole.answer, full⟩],
              streamingText := [],
              isLoading := false,
              abortRef := none },
     ⟨[], [], [full]⟩)
  | FetchOutcome.notOk _ =>
    ({ s with error := some errServerMsg, isLoading := false, abortRef := none },
     ⟨[], [], [errServerMsg]⟩)
  | FetchOutcome.netFail =>
    ({ s with error := some errServerMsg, isLoading := false, abortRef := none },
     ⟨[], [], [errServerMsg]⟩)
  | FetchOutcome.abortBefore =>
    ({ s with isLoading := false, abortRef := none }, ⟨[], [], []⟩)
  | FetchOutcome.abortDuring chunks =>
    ({ s with streamingText := sseRun chunks [],
              isLoading := false,
              abortRef := none },
     ⟨[], [], []⟩)

/-- `handleSubmit` end to end: the synchronous prefix, then — when it opened
a request — the continuation under transport outcome `o`. -/
def handleSubmitModel (s : Session) (nid : Nat) (o : FetchOutcome) : Session × Effects :=
  let r := submitStart s nid
  if r.proceed then
    let f := submitFinish r.st o
    (f.1, effSeq r.eff f.2)
  else (r.st, r.eff)

/-- `stopStreaming` (lines 141-146): abort the controller in
`abortControllerRef`, if any, and null the ref.  Returns the ids aborted. -/
def stopStreamingModel (s : Session) : Session × List Nat :=
  match s.abortRef with
  | none => (s, [])
  | some h => ({ s with abortRef := none }, [h])

/-- The synchronous prefix of `handleDescribe` (lines 429-446): with no
artifact it only speaks the validation message and returns (no error is set);
otherwise set loading, clear transient streamed text, speak the analysis
announcement, append the synthetic describe question, and open the request
with a fresh controller `nid`.  Unlike `submitStart` it does not clear
`error` and does not touch `question`. -/
def describeStart (s : Session) (nid : Nat) : StartResult :=
  if !jsTruthyStr s.image && !jsTruthyStr s.video then
    ⟨s, ⟨[], [], [errNoMediaMsg]⟩, false⟩
  else
    ⟨{ s with isLoading := true,
              streamingText := [],
              conversation := s.conversation ++
                [⟨EntryRole.question,
                  if s.mediaType = MediaKind.video then descVideoQText else descImageQText⟩],
              abortRef := some nid },
     ⟨[nid], [],
      [if s.mediaType = MediaKind.video then analyzeVideoMsg else analyzeImageMsg]⟩, true⟩

/-- The continuation of `handleDescribe` (lines 461-498): it never checks
`response.ok`, so a non-success response is read like a success — its body is
fed to the SSE loop and an `answer` entry is appended with whatever
accumulates; a network failure reaches the catch block, which only speaks the
failure message (the error slot is never set); an `AbortError` sets nothing;
`finally` clears loading and nulls the ref. -/
def describeFinish (s : Session) (o : FetchOutcome) : Session × Effects :=
  match o with
  | FetchOutcome.success chunks =>
    let full := sseRun chunks []
    ({ s with conversation := s.conversation ++ [⟨EntryRole.answer, full⟩],
              streamingText := [],
              isLoading := false,
              abortRef := none },
     ⟨[], [], [full]⟩)
  | FetchOutcome.notOk chunks =>
    let full := sseRun chunks []
    ({ s with conversation := s.conversation ++ [⟨EntryRole.answer, full⟩],
              streamingText := [],
              isLoading := false,
              abortRef := none },
     ⟨[], [], [full]⟩)
  | FetchOutcome.netFail =>
    ({ s with isLoading := false, abortRef := none }, ⟨[], [], [descFailMsg]⟩)
  | FetchOutcome.abortBefore =>
    ({ s with isLoading := false, abortRef := none }, ⟨[], [], []⟩)
  | FetchOutcome.abortDuring chunks =>
    ({ s with streamingText := sseRun chunks [],
              isLoading := false,
              abortRef := none },
     ⟨[], [], []⟩)

/-- `handleDescribe` end to end. -/
def handleDescribeModel (s : Session) (nid : Nat) (o : FetchOutcome) : Session × Effects :=
  let r := describeStart s nid
  if r.proceed then
    let f := describeFinish r.st o
    (f.1, effSeq r.eff f.2)
  else (r.st, r.eff)

/-- `handleReset` (lines 502-513): clear the artifacts, media kind,
conversation, question input, error and transient streamed text; `stopCamera`;
`stopStreaming`; then `speak` the reset announcement — which, when TTS is
enabled and synthesis available, cancels the active utterance and starts a
new one (utterance `uid`), and otherwise leaves the speech resource alone.
Returns the new session, the new speech-synthesis state, and the ids of
aborted stream handles. -/
def handleResetModel (s : Session) (synth : SynthState) (uid : Nat) :
    Session × SynthState × List Nat :=
  let s1 := { s with image := none,
                     video := none,
                     mediaType := MediaKind.image,
                     conversation := [],
                     question := [],
                     error := none,
                     streamingText := [] }
  let s2 := stopCameraModel s1
  let r := stopStreamingModel s2
  (r.1, speakModel s.ttsEnabled synth uid, r.2)

/-! ## Lemmas about the SSE parse loop -/

/-- A frame always passes the `startsWith('data: ')` check. -/
theorem startsWith_frame (t : List Char) : startsWithL dataPrefix (frameOf t) = true := rfl

/-- `slice(6)` of a frame recovers its payload. -/
theorem drop_frame (t : List Char) : (frameOf t).drop 6 = t := rfl

/-- A line without newlines survives `split('\n')` intact. -/
theorem splitOnNl_noNl (l : List Char) (h : noNl l = true) : splitOnNl l = [l] := by
  induction l with
  | nil => rfl
  | cons c cs ih =>
    simp only [noNl, List.all_cons, Bool.and_eq_true, bne_iff_ne, ne_eq] at h
    have hcs : splitOnNl cs = [cs] := ih (by simp [noNl, h.2])
    simp [splitOnNl, h.1, hcs]

/-- Frames of newline-free payloads are newline-free. -/
theorem noNl_frame (t : List Char) (h : noNl t = true) : noNl (frameOf t) = true := by
  simp only [noNl, frameOf, List.all_append, Bool.and_eq_true]
  exact ⟨rfl, h⟩

/-- The read loop on a well-formed stream — one frame per chunk, payloads
`ts`, then the `[DONE]` sentinel — appends exactly the concatenation of the
payloads in arrival order to the accumulator and ignores the sentinel. -/
theorem sseRun_frames (ts : List (List Char)) (acc : List Char)
    (h : ∀ t ∈ ts, noNl t = true ∧ t ≠ doneToken) :
    sseRun (ts.map frameOf ++ [frameOf doneToken]) acc = acc ++ joinAll ts := by
  induction ts generalizing acc with
  | nil =>
    simp [sseRun, joinAll]
    rfl
  | cons t ts ih =>
    have hnl : noNl t = true := (h t (List.mem_cons_self _ _)).1
    have hne : t ≠ doneToken := (h t (List.mem_cons_self _ _)).2
    have hrest : ∀ u ∈ ts, noNl u = true ∧ u ≠ doneToken :=
      fun u hu => h u (List.mem_cons_of_mem _ hu)
    have hsplit : splitOnNl (frameOf t) = [frameOf t] := splitOnNl_noNl _ (noNl_frame t hnl)
    calc sseRun ((t :: ts).map frameOf ++ [frameOf doneToken]) acc
        = sseRun (ts.map frameOf ++ [frameOf doneToken])
            (processLines [frameOf t] acc) := by
          simp [sseRun, hsplit]
      _ = sseRun (ts.map frameOf ++ [frameOf doneToken]) (acc ++ t) := by
          simp [processLines, startsWith_frame, drop_frame, hne]
      _ = (acc ++ t) ++ joinAll ts := ih (acc ++ t) hrest
      _ = acc ++ joinAll (t :: ts) := by simp [joinAll]

/-! ## Concrete sessions used in closed theorems -/

/-- The freshly mounted component: every flag false, nothing held. -/
def baseSession : Session :=
  ⟨none, none, MediaKind.image, [], [], false, none, [], false, true, false,
   false, false, 0, false, false, false, false, none⟩

/-- A session in `CaptureActive`: camera open, live stream held, not yet
recording. -/
def camSession : Session :=
  { baseSession with cameraActive := true, streamRef := true }

/-! ## C1 — recording auto-stop at the 10-second ceiling -/

/-- C1: evaluation of the code at the failing input.  Starting a recording
from `CaptureActive` and letting the one-second interval fire ten times (no
manual stop) does NOT stop the recording: the interval callback invokes the
`stopRecording` closure memoised before `setIsRecording(true)` re-rendered,
whose captured `isRecording` is `false`, so its `if (!isRecording) return`
guard makes it a no-op.  After the 10th tick — and still after the 13th —
`isRecording` is `true`, the `MediaRecorder` is still running and the
interval is still installed; only the displayed counter is pinned at 10.
The claim (and the code's own `10초 자동 중지` comment) say recording stops
upon entering the 10th second. -/
theorem c1_autostop_is_broken :
    (runTicks 10 (startRecordingModel camSession)).isRecording = true
    ∧ (runTicks 10 (startRecordingModel camSession)).recorderRunning = true
    ∧ (runTicks 10 (startRecordingModel camSession)).timerActive = true
    ∧ (runTicks 10 (startRecordingModel camSession)).recordingTime = 10
    ∧ (runTicks 13 (startRecordingModel camSession)).isRecording = true
    ∧ (runTicks 13 (startRecordingModel camSession)).recordingTime = 10 := by
  decide

/-! ## C2 — second submission does not cancel the outstanding handle -/

/-- A session with a question in flight: artifact present, loading, handle 0
outstanding, and a (speech-dictated) question pending in the input. -/
def inFlightSession : Session :=
  { baseSession with image := some ['x'], question := ['q'],
                     isLoading := true, abortRef := some 0 }

/-- C2 is false on the code: submitting a second question while handle 0 is
outstanding issues no `abort()` at all — `handleSubmit` only assigns
`abortControllerRef.current = new AbortController()` — yet a new request is
opened with controller 1 and the ref now holds 1.  The outstanding handle 0
is never cancelled, before or after the new request opens. -/
theorem c2_counterexample :
    (submitStart inFlightSession 1).eff.aborts = []
    ∧ (submitStart inFlightSession 1).eff.requests = [1]
    ∧ (submitStart inFlightSession 1).st.abortRef = some 1 := by
  decide

/-- C2 amended: for every session state whose submission passes validation —
whatever handle is outstanding — submitting a question aborts nothing; it
opens one new request with the fresh controller and overwrites the handle
reference with it, leaving any prior request un-cancelled and in flight. -/
theorem c2_amended (s : Session) (nid : Nat)
    (himg : jsTruthyStr s.image = true) (hq : trimL s.question ≠ []) :
    (submitStart s nid).eff.aborts = []
    ∧ (submitStart s nid).eff.requests = [nid]
    ∧ (submitStart s nid).st.abortRef = some nid := by
  have h1 : (!jsTruthyStr s.image && !jsTruthyStr s.video) = false := by
    simp [himg]
  have h2 : (trimL s.question).isEmpty = false := by
    simpa [List.isEmpty_iff] using hq
  simp [submitStart, h1, h2]

/-- C2 amended, witnessed at the in-flight session with handle 0
outstanding. -/
theorem c2_amended_witness :
    (submitStart inFlightSession 1).eff.aborts = []
    ∧ (submitStart inFlightSession 1).eff.requests = [1]
    ∧ (submitStart inFlightSession 1).st.abortRef = some 1 :=
  c2_amended inFlightSession 1 (by decide) (by decide)

/-! ## C3 — SSE round-trip reconstructs the answer -/

/-- C3: for every session whose submission passes validation and every stream
whose lines are the frames of payloads `ts` followed by the `data: [DONE]`
sentinel, `handleSubmit` appends the optimistic question entry and then
exactly one `answer` entry whose text is the concatenation of the payloads in
arrival order; the sentinel contributes nothing and the transient streamed
text ends cleared. -/
theorem c3_stream_roundtrip (s : Session) (nid : Nat) (ts : List (List Char))
    (himg : jsTruthyStr s.image = true) (hq : trimL s.question ≠ [])
    (hts : ∀ t ∈ ts, noNl t = true ∧ t ≠ doneToken) :
    (handleSubmitModel s nid
        (FetchOutcome.success (ts.map frameOf ++ [frameOf doneToken]))).1.conversation
      = s.conversation
          ++ [⟨EntryRole.question, s.question⟩, ⟨EntryRole.answer, joinAll ts⟩]
    ∧ (handleSubmitModel s nid
        (FetchOutcome.success (ts.map frameOf ++ [frameOf doneToken]))).1.streamingText = [] := by
  have h1 : (!jsTruthyStr s.image && !jsTruthyStr s.video) = false := by
    simp [himg]
  have h2 : (trimL s.question).isEmpty = false := by
    simpa [List.isEmpty_iff] using hq
  have hsse : sseRun (ts.map frameOf ++ [frameOf doneToken]) [] = joinAll ts :=
    sseRun_frames ts [] hts
  constructor <;>
    simp [handleSubmitModel, submitStart, submitFinish, h1, h2, hsse]

/-- A `MediaReady` session holding an image and the typed question `q`. -/
def readySession : Session :=
  { baseSession with image := some ['x'], question := ['q'] }

/-- C3 witnessed on the spec's own example: fragments `["안", "녕"]` then
`[DONE]` reconstruct the answer `"안녕"` in a single appended answer entry. -/
theorem c3_stream_roundtrip_witness :
    (handleSubmitModel readySession 0
        (FetchOutcome.success (["안".toList, "녕".toList].map frameOf ++ [frameOf doneToken]))).1.conversation
      = readySession.conversation
          ++ [⟨EntryRole.question, readySession.question⟩,
              ⟨EntryRole.answer, joinAll ["안".toList, "녕".toList]⟩]
    ∧ (handleSubmitModel readySession 0
        (FetchOutcome.success (["안".toList, "녕".toList].map frameOf ++ [frameOf doneToken]))).1.streamingText = [] :=
  c3_stream_roundtrip readySession 0 ["안".toList, "녕".toList]
    (by decide) (by decide) (by decide)

/-! ## C4 — validation failures change only the error slot -/

/-- C4: for every session with no (truthy) media artifact, or whose question
text trims to empty, `handleSubmit` — under any would-be transport outcome —
produces exactly the input session with an error message in the error slot:
no conversation entry is appended, no request is opened, no abort is issued,
and every other field is unchanged (the record-update equality says the
result differs from `s` in the `error` field alone). -/
theorem c4_validation (s : Session) (nid : Nat) (o : FetchOutcome)
    (h : (jsTruthyStr s.image = false ∧ jsTruthyStr s.video = false)
         ∨ trimL s.question = []) :
    (∃ msg, (handleSubmitModel s nid o).1 = { s with error := some msg })
    ∧ (handleSubmitModel s nid o).2.requests = []
    ∧ (handleSubmitModel s nid o).2.aborts = [] := by
  by_cases h1 : (!jsTruthyStr s.image && !jsTruthyStr s.video) = true
  · exact ⟨⟨errNoMediaMsg, by simp [handleSubmitModel, submitStart, h1]⟩,
      by simp [handleSubmitModel, submitStart, h1],
      by simp [handleSubmitModel, submitStart, h1]⟩
  · have ht : trimL s.question = [] := by
      rcases h with ⟨hi, hv⟩ | ht
      · exact absurd (by simp [hi, hv]) h1
      · exact ht
    have h2 : (trimL s.question).isEmpty = true := by simp [ht]
    exact ⟨⟨errNoQuestionMsg, by simp [handleSubmitModel, submitStart, h1, h2]⟩,
      by simp [handleSubmitModel, submitStart, h1, h2],
      by simp [handleSubmitModel, submitStart, h1, h2]⟩

/-- A `MediaReady` session whose question input is whitespace only. -/
def blankQuestionSession : Session :=
  { baseSession with image := some ['x'], question := [' ', '\n'] }

/-- C4 witnessed: an image is ready but the question is whitespace only;
submission sets only the error slot, opens no request and aborts nothing. -/
theorem c4_validation_witness :
    (∃ msg, (handleSubmitModel blankQuestionSession 0 FetchOutcome.netFail).1
              = { blankQuestionSession with error := some msg })
    ∧ (handleSubmitModel blankQuestionSession 0 FetchOutcome.netFail).2.requests = []
    ∧ (handleSubmitModel blankQuestionSession 0 FetchOutcome.netFail).2.aborts = [] :=
  c4_validation blankQuestionSession 0 FetchOutcome.netFail (Or.inr (by decide))

/-! ## C5 — user cancellation leaves the partial streamed text behind -/

/-- C5 is false on the code: submit from a ready session, receive the
fragment frame for `"안"`, then abort.  The `AbortError` path appends no
entry and shows no error, but nothing clears `streamingText` — the partial
text `"안"` is still there after the handler finishes (`setStreamingText('')`
runs only at submission start and on successful completion). -/
theorem c5_counterexample :
    (handleSubmitModel readySession 0
        (FetchOutcome.abortDuring [frameOf "안".toList])).1.streamingText ≠ []
    ∧ (handleSubmitModel readySession 0
        (FetchOutcome.abortDuring [frameOf "안".toList])).1.streamingText = "안".toList := by
  constructor <;> decide

/-- C5 amended: on explicit cancellation no answer entry is appended (only
the optimistic question entry remains), no error message is shown, the
loading flag ends false and the handle is released — but the transient
streamed text is NOT cleared: it retains exactly the text accumulated before
the abort. -/
theorem c5_cancellation (s : Session) (nid : Nat) (chunks : List (List Char))
    (himg : jsTruthyStr s.image = true) (hq : trimL s.question ≠ []) :
    (handleSubmitModel s nid (FetchOutcome.abortDuring chunks)).1.conversation
      = s.conversation ++ [⟨EntryRole.question, s.question⟩]
    ∧ (handleSubmitModel s nid (FetchOutcome.abortDuring chunks)).1.error = none
    ∧ (handleSubmitModel s nid (FetchOutcome.abortDuring chunks)).1.isLoading = false
    ∧ (handleSubmitModel s nid (FetchOutcome.abortDuring chunks)).1.abortRef = none
    ∧ (handleSubmitModel s nid (FetchOutcome.abortDuring chunks)).1.streamingText
        = sseRun chunks [] := by
  have h1 : (!jsTruthyStr s.image && !jsTruthyStr s.video) = false := by
    simp [himg]
  have h2 : (trimL s.question).isEmpty = false := by
    simpa [List.isEmpty_iff] using hq
  refine ⟨?_, ?_, ?_, ?_, ?_⟩ <;>
    simp [handleSubmitModel, submitStart, submitFinish, h1, h2]

/-- C5 amended, witnessed: one fragment `"안"` arrives, then the user aborts;
the streamed text keeps `"안"`, nothing else is shown or appended. -/
theorem c5_cancellation_witness :
    (handleSubmitModel readySession 7
        (FetchOutcome.abortDuring [frameOf "안".toList])).1.conversation
      = readySession.conversation ++ [⟨EntryRole.question, readySession.question⟩]
    ∧ (handleSubmitModel readySession 7
        (FetchOutcome.abortDuring [frameOf "안".toList])).1.error = none
    ∧ (handleSubmitModel readySession 7
        (FetchOutcome.abortDuring [frameOf "안".toList])).1.isLoading = false
    ∧ (handleSubmitModel readySession 7
        (FetchOutcome.abortDuring [frameOf "안".toList])).1.abortRef = none
    ∧ (handleSubmitModel readySession 7
        (FetchOutcome.abortDuring [frameOf "안".toList])).1.streamingText
        = sseRun [frameOf "안".toList] [] :=
  c5_cancellation readySession 7 [frameOf "안".toList] (by decide) (by decide)

/-! ## C6 — reset releases the stream handle and camera, but not speech -/

/-- C6 amended: reset always clears the artifacts, conversation, question,
error and transient streamed text, closes the camera and recording flags,
drops the stream tracks, aborts exactly the outstanding handle (if any) and
nulls the reference.  Speech, however, does not end idle: when TTS is
disabled (or synthesis unavailable) the `speak` call at the end of
`handleReset` is a no-op, so an utterance already playing keeps playing; and
when TTS is enabled the active utterance is cancelled but the reset
announcement immediately becomes the new active utterance. -/
theorem c6_reset (s : Session) (synth : SynthState) (uid : Nat) :
    (handleResetModel s synth uid).1.image = none
    ∧ (handleResetModel s synth uid).1.video = none
    ∧ (handleResetModel s synth uid).1.conversation = []
    ∧ (handleResetModel s synth uid).1.question = []
    ∧ (handleResetModel s synth uid).1.error = none
    ∧ (handleResetModel s synth uid).1.streamingText = []
    ∧ (handleResetModel s synth uid).1.cameraActive = false
    ∧ (handleResetModel s synth uid).1.isRecording = false
    ∧ (handleResetModel s synth uid).1.streamRef = false
    ∧ (handleResetModel s synth uid).1.abortRef = none
    ∧ (handleResetModel s synth uid).2.2 = s.abortRef.toList
    ∧ ((s.ttsEnabled = false ∨ synth.available = false) →
        (handleResetModel s synth uid).2.1 = synth)
    ∧ (s.ttsEnabled = true → synth.available = true →
        (handleResetModel s synth uid).2.1.active = some uid) := by
  cases habort : s.abortRef with
  | none =>
    refine ⟨?_, ?_, ?_, ?_, ?_, ?_, ?_, ?_, ?_, ?_, ?_, ?_, ?_⟩ <;>
      first
      | (intro h1 h2
         cases hact : synth.active <;>
           simp [handleResetModel, speakModel, cancelModel, h1, h2, hact])
      | (rintro (h1 | h1) <;> simp [handleResetModel, speakModel, h1])
      | simp [handleResetModel, stopStreamingModel, stopCameraModel, habort]
  | some hdl =>
    refine ⟨?_, ?_, ?_, ?_, ?_, ?_, ?_, ?_, ?_, ?_, ?_, ?_, ?_⟩ <;>
      first
      | (intro h1 h2
         cases hact : synth.active <;>
           simp [handleResetModel, speakModel, cancelModel, h1, h2, hact])
      | (rintro (h1 | h1) <;> simp [handleResetModel, speakModel, h1])
      | simp [handleResetModel, stopStreamingModel, stopCameraModel, habort]

/-- A session mid-answer with an active recording also pending, TTS off, and
an utterance `7` currently playing on the platform (the claim's scenario). -/
def busySession : Session :=
  { baseSession with image := some ['x'], isLoading := true, abortRef := some 0,
                     cameraActive := true, streamRef := true, isRecording := true,
                     recorderRunning := true, timerActive := true,
                     ttsEnabled := false, isSpeaking := true }

/-- The speech engine while utterance `7` plays. -/
def synthPlaying : SynthState := ⟨true, some 7, []⟩

/-- C6 is false on the code: with TTS disabled, reset never touches the
speech engine — `handleReset` has no `stopSpeaking()`; its only speech call
is `speak`, which returns immediately when `!ttsEnabled` — so the playing
utterance `7` is still active after reset.  The speech resource does not end
released/idle. -/
theorem c6_counterexample :
    (handleResetModel busySession synthPlaying 9).2.1.active = some 7
    ∧ (handleResetModel busySession synthPlaying 9).2.1.active ≠ none := by
  constructor <;> decide

/-- C6 amended, witnessed at the busy session: everything session-side is
cleared, handle `0` is the one aborted, and (TTS being off) the speech engine
is returned untouched. -/
theorem c6_reset_witness :
    (handleResetModel busySession synthPlaying 9).1.image = none
    ∧ (handleResetModel busySession synthPlaying 9).1.conversation = []
    ∧ (handleResetModel busySession synthPlaying 9).1.cameraActive = false
    ∧ (handleResetModel busySession synthPlaying 9).1.isRecording = false
    ∧ (handleResetModel busySession synthPlaying 9).1.streamRef = false
    ∧ (handleResetModel busySession synthPlaying 9).1.abortRef = none
    ∧ (handleResetModel busySession synthPlaying 9).2.2 = [0]
    ∧ (handleResetModel busySession synthPlaying 9).2.1 = synthPlaying := by
  have h := c6_reset busySession synthPlaying 9
  exact ⟨h.1, h.2.2.1, h.2.2.2.2.2.2.1, h.2.2.2.2.2.2.2.1, h.2.2.2.2.2.2.2.2.1,
    h.2.2.2.2.2.2.2.2.2.1, h.2.2.2.2.2.2.2.2.2.2.1,
    h.2.2.2.2.2.2.2.2.2.2.2.1 (Or.inl rfl)⟩

/-! ## C7 — transport failures: question-mode recovers into the error slot,
describe-mode does not -/

/-- C7 is false on the code: a network failure in describe-mode never places
a message in the session's error slot — `handleDescribe`'s catch block only
speaks — so after the failure the error slot is still empty. -/
theorem c7_counterexample :
    (handleDescribeModel readySession 0 FetchOutcome.netFail).1.error = none := by
  decide

/-- C7 amended: in question-mode a non-success response or a network failure
is caught, places the server-error message in the error slot and returns the
session to media-ready (artifact kept, loading false, handle released).  In
describe-mode a network failure is caught but only spoken — the error slot is
left exactly as it was — and a non-success response is not detected at all:
its body is fed to the SSE parser and an answer entry is appended.  In every
case nothing escapes the handler and loading ends false. -/
theorem c7_transport (s : Session) (nid : Nat) (chunks : List (List Char))
    (himg : jsTruthyStr s.image = true) (hq : trimL s.question ≠ []) :
    (handleSubmitModel s nid (FetchOutcome.notOk chunks)).1.error = some errServerMsg
    ∧ (handleSubmitModel s nid (FetchOutcome.notOk chunks)).1.isLoading = false
    ∧ (handleSubmitModel s nid (FetchOutcome.notOk chunks)).1.abortRef = none
    ∧ (handleSubmitModel s nid (FetchOutcome.notOk chunks)).1.image = s.image
    ∧ (handleSubmitModel s nid FetchOutcome.netFail).1.error = some errServerMsg
    ∧ (handleSubmitModel s nid FetchOutcome.netFail).1.isLoading = false
    ∧ (handleDescribeModel s nid FetchOutcome.netFail).1.error = s.error
    ∧ (handleDescribeModel s nid FetchOutcome.netFail).1.isLoading = false
    ∧ (handleDescribeModel s nid FetchOutcome.netFail).1.abortRef = none
    ∧ (handleDescribeModel s nid FetchOutcome.netFail).2.spoken
        = [(if s.mediaType = MediaKind.video then analyzeVideoMsg else analyzeImageMsg),
           descFailMsg]
    ∧ (handleDescribeModel s nid (FetchOutcome.notOk chunks)).1.conversation
        = s.conversation
            ++ [⟨EntryRole.question,
                 if s.mediaType = MediaKind.video then descVideoQText else descImageQText⟩,
                ⟨EntryRole.answer, sseRun chunks []⟩]
    ∧ (handleDescribeModel s nid (FetchOutcome.notOk chunks)).1.error = s.error := by
  have h1 : (!jsTruthyStr s.image && !jsTruthyStr s.video) = false := by
    simp [himg]
  have h2 : (trimL s.question).isEmpty = false := by
    simpa [List.isEmpty_iff] using hq
  refine ⟨?_, ?_, ?_, ?_, ?_, ?_, ?_, ?_, ?_, ?_, ?_, ?_⟩ <;>
    simp [handleSubmitModel, handleDescribeModel, submitStart, describeStart,
          submitFinish, describeFinish, effSeq, h1, h2]

/-- C7 amended, witnessed at the ready image session with an empty error
slot: question-mode network failure fills the slot; describe-mode network
failure leaves it empty and only speaks. -/
theorem c7_transport_witness :
    (handleSubmitModel readySession 2 (FetchOutcome.notOk [])).1.error = some errServerMsg
    ∧ (handleSubmitModel readySession 2 (FetchOutcome.notOk [])).1.isLoading = false
    ∧ (handleSubmitModel readySession 2 (FetchOutcome.notOk [])).1.abortRef = none
    ∧ (handleSubmitModel readySession 2 (FetchOutcome.notOk [])).1.image = readySession.image
    ∧ (handleSubmitModel readySession 2 FetchOutcome.netFail).1.error = some errServerMsg
    ∧ (handleSubmitModel readySession 2 FetchOutcome.netFail).1.isLoading = false
    ∧ (handleDescribeModel readySession 2 FetchOutcome.netFail).1.error = readySession.error
    ∧ (handleDescribeModel readySession 2 FetchOutcome.netFail).1.isLoading = false
    ∧ (handleDescribeModel readySession 2 FetchOutcome.netFail).1.abortRef = none
    ∧ (handleDescribeModel readySession 2 FetchOutcome.netFail).2.spoken
        = [(if readySession.mediaType = MediaKind.video then analyzeVideoMsg else analyzeImageMsg),
           descFailMsg]
    ∧ (handleDescribeModel readySession 2 (FetchOutcome.notOk [])).1.conversation
        = readySession.conversation
            ++ [⟨EntryRole.question,
                 if readySession.mediaType = MediaKind.video then descVideoQText else descImageQText⟩,
                ⟨EntryRole.answer, sseRun [] []⟩]
    ∧ (handleDescribeModel readySession 2 (FetchOutcome.notOk [])).1.error = readySession.error :=
  c7_transport readySession 2 [] (by decide) (by decide)

/-! ## C8 — entering media-ready clears the conversation, not always the
error -/

/-- A camera session with a stale transport error still displayed. -/
def erroredCamSession : Session :=
  { camSession with error := some errServerMsg }

/-- C8 is false on the code: taking a snapshot while an error message is
pending starts a fresh (empty) conversation but leaves the pending error in
place — `capturePhoto` never calls `setError(null)` (and neither does the
recording-completion path; only the file-import paths do). -/
theorem c8_counterexample :
    (capturePhotoModel erroredCamSession ['d']).conversation = []
    ∧ (capturePhotoModel erroredCamSession ['d']).error = some errServerMsg
    ∧ (capturePhotoModel erroredCamSession ['d']).error ≠ none := by
  refine ⟨?_, ?_, ?_⟩ <;> decide

/-- C8 amended: every way of producing a new artifact — snapshot, recording
completion, image import — starts an empty conversation, but only the import
path clears a pending error; snapshot and recording completion leave the
error slot exactly as it was. -/
theorem c8_media_ready (s : Session) (frameData clip : List Char) (f : JsFile)
    (hf : startsWithL imgPrefix f.ftype = true) :
    (capturePhotoModel s frameData).conversation = []
    ∧ (capturePhotoModel s frameData).error = s.error
    ∧ (recorderOnStopModel s clip).conversation = []
    ∧ (recorderOnStopModel s clip).error = s.error
    ∧ (handleImageUploadModel s (some f)).conversation = []
    ∧ (handleImageUploadModel s (some f)).error = none := by
  refine ⟨?_, ?_, ?_, ?_, ?_, ?_⟩ <;>
    simp [capturePhotoModel, recorderOnStopModel, handleImageUploadModel,
          stopCameraModel, hf]

/-- C8 amended, witnessed at the errored camera session with a PNG import. -/
theorem c8_media_ready_witness :
    (capturePhotoModel erroredCamSession ['d']).conversation = []
    ∧ (capturePhotoModel erroredCamSession ['d']).error = erroredCamSession.error
    ∧ (recorderOnStopModel erroredCamSession ['v']).conversation = []
    ∧ (recorderOnStopModel erroredCamSession ['v']).error = erroredCamSession.error
    ∧ (handleImageUploadModel erroredCamSession (some ⟨"image/png".toList, 3, ['u']⟩)).conversation = []
    ∧ (handleImageUploadModel erroredCamSession (some ⟨"image/png".toList, 3, ['u']⟩)).error = none :=
  c8_media_ready erroredCamSession ['d'] ['v'] ⟨"image/png".toList, 3, ['u']⟩ (by decide)

/-! ## C9 — speech output is last-call-wins -/

/-- C9: with TTS enabled and synthesis available, speaking `a` and then `b`
before `a` finishes cancels `a` before `b` starts — `a` receives an error
(interrupted) event, never an end event — so after `b` finishes naturally the
whole trace carries exactly one end event, for `b` and never for `a`, and at
the moment `b` was requested it was the only active utterance. -/
theorem c9_last_call_wins (synth : SynthState) (a b : Nat)
    (hav : synth.available = true) (hact : synth.active = none)
    (hev : synth.events = []) (hab : a ≠ b) :
    endedCount (utterFinishModel (speakModel true (speakModel true synth a) b)).events = 1
    ∧ SpeechEvent.ended b ∈ (utterFinishModel (speakModel true (speakModel true synth a) b)).events
    ∧ SpeechEvent.ended a ∉ (utterFinishModel (speakModel true (speakModel true synth a) b)).events
    ∧ (speakModel true (speakModel true synth a) b).active = some b := by
  obtain ⟨av, act, ev⟩ := synth
  simp only at hav hact hev
  subst hav hact hev
  refine ⟨?_, ?_, ?_, ?_⟩ <;>
    simp [speakModel, cancelModel, utterFinishModel, endedCount, hab]

/-- C9 witnessed with utterances `0` then `1` on an idle, available engine:
one end event overall, for `1`, never for `0`. -/
theorem c9_last_call_wins_witness :
    endedCount (utterFinishModel (speakModel true (speakModel true ⟨true, none, []⟩ 0) 1)).events = 1
    ∧ SpeechEvent.ended 1 ∈ (utterFinishModel (speakModel true (speakModel true ⟨true, none, []⟩ 0) 1)).events
    ∧ SpeechEvent.ended 0 ∉ (utterFinishModel (speakModel true (speakModel true ⟨true, none, []⟩ 0) 1)).events
    ∧ (speakModel true (speakModel true ⟨true, none, []⟩ 0) 1).active = some 1 :=
  c9_last_call_wins ⟨true, none, []⟩ 0 1 rfl rfl rfl (by decide)

/-! ## C10 — `speak` is a no-op when TTS is off or synthesis unavailable -/

/-- C10: with the TTS toggle off, or no `speechSynthesis` in the platform,
`speak` returns before doing anything: the engine state — active utterance
and event trace — is exactly as before, so no utterance is cancelled, none is
started, no handler fires, and (the handlers being the only writers of the
speaking flag) the session is untouched. -/
theorem c10_speak_noop (tts : Bool) (synth : SynthState) (uid : Nat)
    (h : tts = false ∨ synth.available = false) :
    speakModel tts synth uid = synth := by
  rcases h with h | h <;> simp [speakModel, h]

/-- C10 witnessed: TTS off while utterance `3` plays — `speak 9` changes
nothing. -/
theorem c10_speak_noop_witness :
    speakModel false ⟨true, some 3, []⟩ 9 = ⟨true, some 3, []⟩ :=
  c10_speak_noop false ⟨true, some 3, []⟩ 9 (Or.inl rfl)
